import Mathlib

/-!
Verification of the testizer email-funnels repository: a shallow embedding of
the Brevo API client, the outbox sync worker, the funnel-entry store and the
funnel orchestrators, with theorems settling the specification claims.

Conventions of the embedding:
* Python exceptions become `Except` / `Option` error components.
* The HTTP layer is an environment: a function from attempt index to the
  outcome (`HttpOutcome`) that `requests.request` would produce on that
  attempt.  Each operation reports how many HTTP attempts it consumed.
* `datetime` values are modelled as integer timestamps; a raw value coming
  back from a database driver is a `DbValue`, whose constructor records the
  Python runtime type (`isinstance` checks become constructor matches).
* Machine dictionaries become association lists (`List (String × PyVal)`),
  with Python `dict.update` semantics reproduced by `dictUpdate`.
-/

namespace Testizer

/-- Scalar values appearing in JSON dictionaries and contact attributes. -/
inductive PyVal where
  | int (n : Int)
  | str (s : String)
  | bool (b : Bool)
  deriving Repr, DecidableEq

/-- A JSON object, as an association list (insertion ordered, like a Python dict). -/
abbrev JDict := List (String × PyVal)

/-- Python `dict` assignment `d[k] = v`: replaces the value of an existing key
in place, otherwise appends the new key at the end. -/
def dictSet (d : JDict) (k : String) (v : PyVal) : JDict :=
  if d.any (fun p => p.1 = k) then
    d.map (fun p => if p.1 = k then (k, v) else p)
  else
    d ++ [(k, v)]

/-- Python `dict.update`: assigns every key/value pair of `kvs` into `d`. -/
def dictUpdate (d : JDict) (kvs : JDict) : JDict :=
  kvs.foldl (fun acc p => dictSet acc p.1 p.2) d

/-- Outcome of a single call to `requests.request`:
either a network-level exception (`requests.RequestException`) or an HTTP
response carrying a status code, a body text, and the body parsed as JSON
(`none` when the body is not valid JSON, so that `response.json()` raises). -/
inductive HttpOutcome where
  | netError (msg : String)
  | response (status : Nat) (text : String) (jsonBody : Option JDict)
  deriving Repr, DecidableEq

/-- The exceptions `BrevoApiClient._request` can raise:
`RuntimeError` (missing API key), `BrevoTransientError`, `BrevoFatalError`. -/
inductive RequestError where
  | runtimeError (msg : String)
  | transientError (msg : String)
  | fatalError (msg : String)
  deriving Repr, DecidableEq

/-- Python `str(e)` for the exceptions of `RequestError`. -/
def RequestError.message : RequestError → String
  | .runtimeError m => m
  | .transientError m => m
  | .fatalError m => m

/-- `BrevoContact` from `brevo/models.py`: email, list ids, attributes and
the update flag (default `True`). -/
structure BrevoContact where
  email : String
  list_ids : List Int
  attributes : JDict
  update_enabled : Bool := true
  deriving Repr, DecidableEq

/-- The payload `BrevoContact.to_payload` builds: `listIds` and `attributes`
are included only when non-empty. -/
structure ContactPayload where
  email : String
  updateEnabled : Bool
  listIds : Option (List Int)
  attributes : Option JDict
  deriving Repr, DecidableEq

/-- `BrevoContact.to_payload` from `brevo/models.py`. -/
def BrevoContact.to_payload (c : BrevoContact) : ContactPayload :=
  { email := c.email
    updateEnabled := c.update_enabled
    listIds := if c.list_ids.isEmpty then none else some c.list_ids
    attributes := if c.attributes.isEmpty then none else some c.attributes }

/-- `BrevoApiClient` configuration state, as set up by `__init__`
(`api_key.strip()`, `base_url.rstrip("/")`, the dry-run flag). -/
structure BrevoApiClient where
  api_key : String
  base_url : String
  dry_run : Bool
  deriving Repr

/-- Python `str.rstrip("/")`: drops every trailing slash. -/
def rstripSlash (s : String) : String :=
  String.mk ((s.data.reverse.dropWhile (fun c => c = '/')).reverse)

/-- `BrevoApiClient.__init__` from `brevo/api_client.py`. -/
def mkBrevoApiClient (api_key base_url : String) (dry_run : Bool) : BrevoApiClient :=
  { api_key := api_key.trim, base_url := rstripSlash base_url, dry_run := dry_run }

/-- `BrevoApiClient._build_url`. -/
def BrevoApiClient.build_url (c : BrevoApiClient) (path : String) : String :=
  if path.startsWith "/" then c.base_url ++ path else c.base_url ++ "/" ++ path

/-- The 500-character trim `_request` applies to the response text before
embedding it in an error message. -/
def trimResponseText (text : String) : String :=
  if text.length > 500 then text.take 500 ++ "..." else text

/-- The sentinel dictionary `_request` returns in dry-run mode. -/
def dryRunDict : JDict := [("dry_run", PyVal.bool true)]

/-- `BrevoApiClient._request` from `brevo/api_client.py`.  `outcomes i` is
what the HTTP layer does on the i-th attempt of this call; the result pairs
the returned dictionary (or the raised exception) with the number of HTTP
attempts actually made.  Faithful to the source, the body makes at most one
attempt: there is no retry loop in `_request`. -/
def BrevoApiClient.request (c : BrevoApiClient) (method path : String)
    (json_body : Option ContactPayload) (outcomes : Nat → HttpOutcome) :
    Except RequestError JDict × Nat :=
  let _ := c.build_url path
  let _ := method
  let _ := json_body
  if c.dry_run then
    (.ok dryRunDict, 0)
  else if c.api_key = "" then
    (.error (.runtimeError "Brevo API key is not configured"), 0)
  else
    match outcomes 0 with
    | .netError msg =>
        (.error (.transientError ("Network error: " ++ msg)), 1)
    | .response status text jsonBody =>
        if 400 ≤ status then
          let response_text := trimResponseText text
          if status = 429 ∨ 500 ≤ status then
            (.error (.transientError
              ("Brevo API error " ++ toString status ++ ": " ++ response_text)), 1)
          else
            (.error (.fatalError
              ("Brevo API error " ++ toString status ++ ": " ++ response_text)), 1)
        else
          match jsonBody with
          | some d => (.ok d, 1)
          | none => (.ok [], 1)

/-- `BrevoApiClient.create_or_update_contact`: builds the payload and performs
`POST /contacts` through `_request` (logging omitted). -/
def BrevoApiClient.create_or_update_contact (c : BrevoApiClient)
    (contact : BrevoContact) (outcomes : Nat → HttpOutcome) :
    Except RequestError JDict × Nat :=
  c.request "POST" "/contacts" (some contact.to_payload) outcomes

/-- Job status enum of the outbox (`PENDING | SUCCESS | ERROR`). -/
inductive JobStatus where
  | pending
  | success
  | error
  deriving Repr, DecidableEq

/-- Result of `json.loads` on a job payload: either a decoding failure
(`json.JSONDecodeError`, carrying its message) or the parsed document.
Fields the worker reads are optional when the source uses `.get` defaults. -/
structure PayloadData where
  email : Option String
  list_ids : List Int
  attributes : JDict
  update_enabled : Option Bool
  purchased_at : Option String
  deriving Repr, DecidableEq

/-- A job payload string, abstracted to its `json.loads` behaviour. -/
inductive JobPayload where
  | malformed (err : String)
  | valid (data : PayloadData)
  deriving Repr, DecidableEq

/-- Modelled from the spec: `brevo/outbox.py` is absent from the sources
(only `brevo/sync_worker.py` imports it); the `OutboxJob` shape follows §3 of
the spec: id, operation_type, payload, status, retry_count, error_message. -/
structure BrevoSyncJob where
  id : Nat
  operation_type : String
  payload : JobPayload
  status : JobStatus
  retry_count : Nat
  error_message : Option String
  deriving Repr, DecidableEq

/-- Modelled from the spec: `fetch_pending_jobs` of the absent
`brevo/outbox.py` — up to `limit` PENDING jobs, FIFO by creation. -/
def fetch_pending_jobs (outbox : List BrevoSyncJob) (limit : Nat) :
    List BrevoSyncJob :=
  (outbox.filter (fun j => j.status = JobStatus.pending)).take limit

/-- Modelled from the spec: `mark_job_success` of the absent
`brevo/outbox.py` — `PENDING → SUCCESS`, no-op if already terminal. -/
def mark_job_success (outbox : List BrevoSyncJob) (id : Nat) :
    List BrevoSyncJob :=
  outbox.map (fun j =>
    if j.id = id ∧ j.status = JobStatus.pending then
      { j with status := JobStatus.success }
    else j)

/-- Modelled from the spec: `mark_job_error` of the absent
`brevo/outbox.py` — `PENDING → ERROR`, stores the message, no-op if already
terminal. -/
def mark_job_error (outbox : List BrevoSyncJob) (id : Nat) (msg : String) :
    List BrevoSyncJob :=
  outbox.map (fun j =>
    if j.id = id ∧ j.status = JobStatus.pending then
      { j with status := JobStatus.error, error_message := some msg }
    else j)

/-- Status and error message of the outbox row with the given id (the row a
`SELECT ... WHERE id = %s` would observe). -/
def statusOf (outbox : List BrevoSyncJob) (id : Nat) :
    Option (JobStatus × Option String) :=
  (outbox.find? (fun j => decide (j.id = id))).map
    (fun j => (j.status, j.error_message))

/-- The exceptions worker job processing can raise: `ValueError` from
payload validation/dispatch, or an exception escaping the API client. -/
inductive PyExn where
  | valueError (msg : String)
  | request (e : RequestError)
  deriving Repr, DecidableEq

/-- Python `str(e)` for the exceptions of `PyExn`. -/
def PyExn.message : PyExn → String
  | .valueError m => m
  | .request e => e.message

/-- `BrevoSyncWorker._process_upsert_contact` from `brevo/sync_worker.py`:
requires the `email` field, builds the contact with defaulted fields, and
calls `create_or_update_contact`.  Returns the outcome together with the
number of HTTP attempts the client made. -/
def process_upsert_contact (client : BrevoApiClient) (d : PayloadData)
    (outcomes : Nat → HttpOutcome) : Except PyExn Unit × Nat :=
  match d.email with
  | none => (.error (.valueError "Missing required field 'email' in payload"), 0)
  | some em =>
      let contact : BrevoContact :=
        { email := em
          list_ids := d.list_ids
          attributes := d.attributes
          update_enabled := d.update_enabled.getD true }
      match client.create_or_update_contact contact outcomes with
      | (.ok _, n) => (.ok (), n)
      | (.error e, n) => (.error (.request e), n)

/-- `BrevoSyncWorker._process_update_after_purchase`: merges the purchase
attributes into the payload attributes and upserts the contact. -/
def process_update_after_purchase (client : BrevoApiClient) (d : PayloadData)
    (outcomes : Nat → HttpOutcome) : Except PyExn Unit × Nat :=
  match d.email with
  | none => (.error (.valueError "Missing required field 'email' in payload"), 0)
  | some em =>
      let attributes := dictUpdate d.attributes
        [("CERTIFICATE_PURCHASED", PyVal.int 1),
         ("CERTIFICATE_PURCHASED_AT", PyVal.str (d.purchased_at.getD ""))]
      let contact : BrevoContact :=
        { email := em
          list_ids := d.list_ids
          attributes := attributes
          update_enabled := true }
      match client.create_or_update_contact contact outcomes with
      | (.ok _, n) => (.ok (), n)
      | (.error e, n) => (.error (.request e), n)

/-- `BrevoSyncWorker._process_job`: decode the payload (a decode failure
raises `ValueError` with the decoding-failure message), then dispatch on
`operation_type`; an unrecognized operation raises `ValueError`. -/
def process_job (client : BrevoApiClient) (job : BrevoSyncJob)
    (outcomes : Nat → HttpOutcome) : Except PyExn Unit × Nat :=
  match job.payload with
  | .malformed e =>
      (.error (.valueError
        ("Invalid JSON payload for job " ++ toString job.id ++ ": " ++ e)), 0)
  | .valid d =>
      if job.operation_type = "upsert_contact" then
        process_upsert_contact client d outcomes
      else if job.operation_type = "update_after_purchase" then
        process_update_after_purchase client d outcomes
      else
        (.error (.valueError
          ("Unknown operation_type '" ++ job.operation_type ++ "' for job "
            ++ toString job.id)), 0)

/-- One iteration of the `run_once` loop: process the job, then mark success
or mark error with `str(e)` — every exception class is caught and converted,
none escapes the loop body. -/
def run_once_step (client : BrevoApiClient) (env : Nat → Nat → HttpOutcome)
    (acc : List BrevoSyncJob × List (Nat × Nat × Except PyExn Unit))
    (p : Nat × BrevoSyncJob) :
    List BrevoSyncJob × List (Nat × Nat × Except PyExn Unit) :=
  let r := process_job client p.2 (env p.1)
  match r.1 with
  | .ok _ => (mark_job_success acc.1 p.2.id, acc.2 ++ [(p.2.id, r.2, r.1)])
  | .error e =>
      (mark_job_error acc.1 p.2.id e.message, acc.2 ++ [(p.2.id, r.2, r.1)])

/-- `BrevoSyncWorker.run_once` from `brevo/sync_worker.py`: fetch up to
`limit` pending jobs and process each exactly once.  `env i` is the HTTP
environment seen by the i-th fetched job.  Besides the updated outbox the
model returns a trace recording, per job, its id, the number of HTTP
attempts made for it, and the dispatch outcome. -/
def run_once (client : BrevoApiClient) (outbox : List BrevoSyncJob)
    (env : Nat → Nat → HttpOutcome) (limit : Nat) :
    List BrevoSyncJob × List (Nat × Nat × Except PyExn Unit) :=
  ((fetch_pending_jobs outbox limit).enum).foldl
    (run_once_step client env) (outbox, [])

/-- A row of the `funnel_entries` table.  `certificate_purchased_at` and
`entered_at` model `DATETIME` columns as integer timestamps. -/
structure FunnelEntry where
  id : Nat
  email : String
  funnel_type : String
  user_id : Option Int
  test_id : Option Int
  certificate_purchased : Bool
  certificate_purchased_at : Option Int
  entered_at : Nat
  deriving Repr, DecidableEq

/-- The `funnel_entries` table state: its rows, the auto-increment counter,
and a clock supplying the `entered_at` default (`CURRENT_TIMESTAMP`). -/
structure FunnelStore where
  rows : List FunnelEntry
  next_id : Nat
  clock : Nat
  deriving Repr, DecidableEq

/-- Modelled from the spec: the schema file (`tests/mysql/test_schema.sql`)
is absent from the sources, so the uniqueness invariant of §3 — "the tuple
(email, funnel_type, test_id) is unique — enforced by the store" — is taken
from the spec: an INSERT raises `IntegrityError` exactly when a row with the
same tuple already exists. -/
def tupleMatches (email funnel_type : String) (test_id : Option Int)
    (r : FunnelEntry) : Bool :=
  decide (r.email = email ∧ r.funnel_type = funnel_type ∧ r.test_id = test_id)

/-- Whether some stored row already carries the (email, funnel_type, test_id)
tuple (the condition under which the spec-modelled unique constraint makes
the INSERT raise `IntegrityError`). -/
def tupleOccupied (s : FunnelStore) (email funnel_type : String)
    (test_id : Option Int) : Bool :=
  s.rows.any (tupleMatches email funnel_type test_id)

/-- Number of stored rows carrying the given (email, funnel_type, test_id). -/
def tupleCount (s : FunnelStore) (email funnel_type : String)
    (test_id : Option Int) : Nat :=
  (s.rows.filter (tupleMatches email funnel_type test_id)).length

/-- `create_funnel_entry` from `analytics/tracking.py`: INSERT the new row;
on `IntegrityError` (duplicate tuple, per the spec-modelled constraint) log
and return `None`; otherwise return `cursor.lastrowid`. -/
def create_funnel_entry (s : FunnelStore) (email funnel_type : String)
    (user_id test_id : Option Int) : FunnelStore × Option Nat :=
  if tupleOccupied s email funnel_type test_id then
    (s, none)
  else
    let row : FunnelEntry :=
      { id := s.next_id
        email := email
        funnel_type := funnel_type
        user_id := user_id
        test_id := test_id
        certificate_purchased := false
        certificate_purchased_at := none
        entered_at := s.clock }
    ({ rows := s.rows ++ [row], next_id := s.next_id + 1, clock := s.clock + 1 },
      some s.next_id)

/-- The WHERE clause of the UPDATE in `mark_certificate_purchased`: the row
matches (email, funnel_type), also `test_id` when one is supplied, and is
not yet marked purchased. -/
def purchaseRowMatches (email funnel_type : String) (test_id : Option Int)
    (r : FunnelEntry) : Bool :=
  match test_id with
  | none =>
      decide (r.email = email ∧ r.funnel_type = funnel_type ∧
        r.certificate_purchased = false)
  | some t =>
      decide (r.email = email ∧ r.funnel_type = funnel_type ∧
        r.test_id = some t ∧ r.certificate_purchased = false)

/-- The SET clause of that UPDATE applied to one row. -/
def purchaseRowUpdate (email funnel_type : String) (test_id : Option Int)
    (purchased_at : Int) (r : FunnelEntry) : FunnelEntry :=
  if purchaseRowMatches email funnel_type test_id r then
    { r with certificate_purchased := true
             certificate_purchased_at := some purchased_at }
  else r

/-- `mark_certificate_purchased` from `analytics/tracking.py`: UPDATE every
matching not-yet-purchased row.  The second component models the Python
return value: the source is annotated `-> None` and has no return statement,
so it is always `none` (a count-reporting variant would yield `some n`). -/
def mark_certificate_purchased (s : FunnelStore) (email funnel_type : String)
    (test_id : Option Int) (purchased_at : Int) : FunnelStore × Option Nat :=
  ({ s with rows := s.rows.map (purchaseRowUpdate email funnel_type test_id purchased_at) },
    none)

/-- Number of rows the UPDATE of `mark_certificate_purchased` would touch. -/
def purchaseUpdateCount (s : FunnelStore) (email funnel_type : String)
    (test_id : Option Int) : Nat :=
  (s.rows.filter (purchaseRowMatches email funnel_type test_id)).length

/-- An opaque database connection handle (the selectors receive one). -/
structure Connection where
  deriving Repr, DecidableEq

/-- `get_non_language_test_candidates` from `db/selectors.py`: the body is
literally `return []` (placeholder until non-language selection exists). -/
def get_non_language_test_candidates (conn : Connection) (limit : Nat) :
    List (Int × String) :=
  let _ := conn
  let _ := limit
  []

/-- Insertion step for ordering pending entries by `entered_at` (ascending). -/
def insertByEnteredAt (r : FunnelEntry) : List FunnelEntry → List FunnelEntry
  | [] => [r]
  | x :: xs =>
      if r.entered_at < x.entered_at then r :: x :: xs
      else x :: insertByEnteredAt r xs

/-- `ORDER BY entered_at ASC` over a row list. -/
def sortByEnteredAt (l : List FunnelEntry) : List FunnelEntry :=
  l.foldr insertByEnteredAt []

/-- `get_pending_funnel_entries` from `db/selectors.py`: rows with
`certificate_purchased = 0`, ordered by `entered_at` ascending, limited to
`max_rows`, projected to (email, funnel_type, user_id, test_id). -/
def get_pending_funnel_entries (s : FunnelStore) (max_rows : Nat) :
    List (String × String × Option Int × Option Int) :=
  ((sortByEnteredAt (s.rows.filter (fun r => r.certificate_purchased = false))).take
      max_rows).map (fun r => (r.email, r.funnel_type, r.user_id, r.test_id))

/-- Modelled from the spec: `funnels/models.py` is absent from the sources;
the `FunnelType` string constants follow §8 of the spec and the assertions of
`tests/test_funnels_models.py`. -/
def FunnelType.LANGUAGE : String := "language"

/-- Modelled from the spec: the non-language funnel type constant. -/
def FunnelType.NON_LANGUAGE : String := "non_language"

/-- Modelled from the spec: `FunnelCandidate` of the absent
`funnels/models.py`, with the fields `FunnelSyncService` uses (optional
fields default to `None` per `tests/test_funnels_models.py`). -/
structure FunnelCandidate where
  email : String
  funnel_type : String
  user_id : Option Int
  test_id : Option Int
  test_completed_at : Option Int
  deriving Repr, DecidableEq

/-- `FunnelSyncService._map_placeholder_row_to_candidate`: extracts the email
from the (user_id, email) selector row; other fields are set to `None`. -/
def map_placeholder_row_to_candidate (row : Int × String)
    (funnel_type : String) : FunnelCandidate :=
  { email := row.2
    funnel_type := funnel_type
    user_id := none
    test_id := none
    test_completed_at := none }

/-- Observable state of a funnel-intake run: the `funnel_entries` store plus
a trace of the contacts dispatched to the Brevo client and of the candidates
handed to `_process_candidate`. -/
structure SyncState where
  store : FunnelStore
  brevoCalls : List BrevoContact
  processed : List FunnelCandidate
  deriving Repr, DecidableEq

/-- `FunnelSyncService._process_candidate` from `funnels/sync_service.py`:
build the contact, call `create_or_update_contact` (an exception propagates),
then call `create_funnel_entry`.  The source contains no dry-run check of its
own; dry-run behaviour comes only from the client's `_request`. -/
def process_candidate (client : BrevoApiClient) (outcomes : Nat → HttpOutcome)
    (st : SyncState) (candidate : FunnelCandidate) (list_id : Int) :
    SyncState × Option RequestError :=
  let contact : BrevoContact :=
    { email := candidate.email
      list_ids := [list_id]
      attributes := [("FUNNEL_TYPE", PyVal.str candidate.funnel_type)]
      update_enabled := true }
  match client.create_or_update_contact contact outcomes with
  | (.error e, _) =>
      ({ st with brevoCalls := st.brevoCalls ++ [contact]
                 processed := st.processed ++ [candidate] }, some e)
  | (.ok _, _) =>
      let store2 := (create_funnel_entry st.store candidate.email
        candidate.funnel_type candidate.user_id candidate.test_id).1
      ({ store := store2
         brevoCalls := st.brevoCalls ++ [contact]
         processed := st.processed ++ [candidate] }, none)

/-- The per-funnel loop shared by `_sync_language_funnel` and
`_sync_non_language_funnel`: map each row to a candidate and process it; an
exception stops the loop and propagates. -/
def sync_rows_loop (client : BrevoApiClient) (env : Nat → Nat → HttpOutcome)
    (funnel_type : String) (list_id : Int) (i : Nat) (st : SyncState) :
    List (Int × String) → SyncState × Option RequestError
  | [] => (st, none)
  | row :: rest =>
      let candidate := map_placeholder_row_to_candidate row funnel_type
      match process_candidate client (env i) st candidate list_id with
      | (st2, some e) => (st2, some e)
      | (st2, none) =>
          sync_rows_loop client env funnel_type list_id (i + 1) st2 rest

/-- `FunnelSyncService._sync_language_funnel`: skipped when the list id is
not configured (`<= 0`). -/
def sync_language_funnel (client : BrevoApiClient)
    (env : Nat → Nat → HttpOutcome) (language_list_id : Int) (st : SyncState)
    (rows : List (Int × String)) : SyncState × Option RequestError :=
  if language_list_id ≤ 0 then (st, none)
  else sync_rows_loop client env FunnelType.LANGUAGE language_list_id 0 st rows

/-- `FunnelSyncService._sync_non_language_funnel`: skipped when the list id
is not configured (`<= 0`). -/
def sync_non_language_funnel (client : BrevoApiClient)
    (env : Nat → Nat → HttpOutcome) (non_language_list_id : Int)
    (st : SyncState) (rows : List (Int × String)) :
    SyncState × Option RequestError :=
  if non_language_list_id ≤ 0 then (st, none)
  else
    sync_rows_loop client env FunnelType.NON_LANGUAGE non_language_list_id 0 st rows

/-- `FunnelSyncService.sync` from `funnels/sync_service.py`.  The language
selector reads external `simpletest` tables, which are not embedded:
`language_rows` is its result, supplied as an input.  The non-language rows
come from `get_non_language_test_candidates` exactly as in the source.
`env_lang` and `env_non` are the HTTP environments of the two loops. -/
def FunnelSyncService.sync (client : BrevoApiClient)
    (env_lang env_non : Nat → Nat → HttpOutcome) (conn : Connection)
    (language_list_id non_language_list_id : Int) (st : SyncState)
    (language_rows : List (Int × String)) (max_rows_per_type : Nat) :
    SyncState × Option RequestError :=
  let non_language_rows := get_non_language_test_candidates conn max_rows_per_type
  match sync_language_funnel client env_lang language_list_id st language_rows with
  | (st1, some e) => (st1, some e)
  | (st1, none) =>
      sync_non_language_funnel client env_non non_language_list_id st1
        non_language_rows

/-- A raw value returned by the database driver, tagged with its Python
runtime type so that `isinstance(value, datetime)` becomes a constructor
match. -/
inductive DbValue where
  | datetime (t : Int)
  | intVal (n : Int)
  | strVal (s : String)
  | nullVal
  deriving Repr, DecidableEq

/-- `PurchaseSyncService._ensure_datetime` from
`funnels/purchase_sync_service.py`: return the value when it is a
`datetime`, otherwise raise `ValueError`. -/
def ensure_datetime (value : DbValue) : Except String Int :=
  match value with
  | .datetime t => .ok t
  | _ => .error "Unexpected purchased_at value type"

/-- The external purchase source: the result of
`get_certificate_purchase_for_entry`, which queries MODX certificate tables
not embedded here — `(email, funnel_type) ↦ some (payment_id, purchased_at)`
when a paid certificate exists. -/
abbrev PurchaseSource := String → String → Option (Int × DbValue)

/-- `datetime.isoformat`, over the integer-timestamp model of datetimes. -/
def isoformat (t : Int) : String := toString t

/-- Observable state of a purchase-sync run: the `funnel_entries` store and
the trace of contacts dispatched to the Brevo client. -/
structure PurchaseState where
  store : FunnelStore
  brevoCalls : List BrevoContact
  deriving Repr, DecidableEq

/-- `PurchaseSyncService._update_brevo_contact_after_purchase`: upsert the
contact with the purchase attributes (no list membership change). -/
def update_brevo_contact_after_purchase (client : BrevoApiClient)
    (outcomes : Nat → HttpOutcome) (st : PurchaseState) (email : String)
    (funnel_type : String) (purchased_at : Int) :
    PurchaseState × Option RequestError :=
  let contact : BrevoContact :=
    { email := email
      list_ids := []
      attributes :=
        [("FUNNEL_TYPE", PyVal.str funnel_type),
         ("CERTIFICATE_PURCHASED", PyVal.int 1),
         ("CERTIFICATE_PURCHASED_AT", PyVal.str (isoformat purchased_at))]
      update_enabled := true }
  match client.create_or_update_contact contact outcomes with
  | (.error e, _) => ({ st with brevoCalls := st.brevoCalls ++ [contact] }, some e)
  | (.ok _, _) => ({ st with brevoCalls := st.brevoCalls ++ [contact] }, none)

/-- The body of the `PurchaseSyncService.sync` loop for one pending entry:
look up the purchase, validate its timestamp with `_ensure_datetime` (a
`ValueError` propagates), then — unless dry-run — mark the ledger and update
the Brevo contact. -/
def process_pending_entry (client : BrevoApiClient) (dry_run : Bool)
    (outcomes : Nat → HttpOutcome) (source : PurchaseSource)
    (st : PurchaseState) (entry : String × String × Option Int × Option Int) :
    PurchaseState × Option PyExn :=
  match entry with
  | (email, funnel_type, _user_id, test_id) =>
    match source email funnel_type with
    | none => (st, none)
    | some (_order_id, purchased_at) =>
        match ensure_datetime purchased_at with
        | .error m => (st, some (.valueError m))
        | .ok t =>
            if dry_run then (st, none)
            else
              let store2 :=
                (mark_certificate_purchased st.store email funnel_type test_id t).1
              match update_brevo_contact_after_purchase client outcomes
                  { st with store := store2 } email funnel_type t with
              | (st2, some e) => (st2, some (.request e))
              | (st2, none) => (st2, none)

/-- The `PurchaseSyncService.sync` loop over the pending entries; an
exception stops the loop and propagates. -/
def purchase_sync_loop (client : BrevoApiClient) (dry_run : Bool)
    (env : Nat → Nat → HttpOutcome) (source : PurchaseSource) (i : Nat)
    (st : PurchaseState) :
    List (String × String × Option Int × Option Int) →
      PurchaseState × Option PyExn
  | [] => (st, none)
  | entry :: rest =>
      match process_pending_entry client dry_run (env i) source st entry with
      | (st2, some e) => (st2, some e)
      | (st2, none) =>
          purchase_sync_loop client dry_run env source (i + 1) st2 rest

/-- `PurchaseSyncService.sync` from `funnels/purchase_sync_service.py`:
fetch up to `max_rows` pending entries and process them in order. -/
def PurchaseSyncService.sync (client : BrevoApiClient) (dry_run : Bool)
    (env : Nat → Nat → HttpOutcome) (source : PurchaseSource)
    (st : PurchaseState) (max_rows : Nat) : PurchaseState × Option PyExn :=
  purchase_sync_loop client dry_run env source 0 st
    (get_pending_funnel_entries st.store max_rows)

/-- `FunnelConversion` from `analytics/report_service.py`. -/
structure FunnelConversion where
  funnel_type : String
  total_entries : Int
  total_purchased : Int
  deriving Repr, DecidableEq

/-- `FunnelConversion.conversion_rate`: `total_purchased / total_entries`,
and exactly `0.0` when `total_entries` is zero.  Python float division over
database integer counts is modelled as exact rational division. -/
def FunnelConversion.conversion_rate (fc : FunnelConversion) : ℚ :=
  if fc.total_entries = 0 then 0
  else (fc.total_purchased : ℚ) / (fc.total_entries : ℚ)

/-- Concrete Brevo client used by the worker witness scenario. -/
def worker_fixture_client : BrevoApiClient :=
  { api_key := "k", base_url := "https://api.brevo.com/v3", dry_run := false }

/-- Concrete outbox used by the worker witness scenario: a job with a
malformed payload, a job with an unknown operation, and two well-formed
upsert jobs. -/
def worker_fixture_outbox : List BrevoSyncJob :=
  [{ id := 1, operation_type := "upsert_contact",
     payload := .malformed "Expecting value", status := .pending,
     retry_count := 0, error_message := none },
   { id := 2, operation_type := "frobnicate",
     payload := .valid
       { email := some "u@e.c", list_ids := [4], attributes := [],
         update_enabled := none, purchased_at := none },
     status := .pending, retry_count := 0, error_message := none },
   { id := 3, operation_type := "upsert_contact",
     payload := .valid
       { email := some "u@e.c", list_ids := [4], attributes := [],
         update_enabled := none, purchased_at := none },
     status := .pending, retry_count := 0, error_message := none },
   { id := 4, operation_type := "upsert_contact",
     payload := .valid
       { email := some "u@e.c", list_ids := [4], attributes := [],
         update_enabled := none, purchased_at := none },
     status := .pending, retry_count := 0, error_message := none }]

/-- HTTP environment of the worker witness scenario: the third fetched job
(index 2) gets a 200 response, every other attempt gets a 500. -/
def worker_fixture_env : Nat → Nat → HttpOutcome :=
  fun i _ =>
    if i = 2 then HttpOutcome.response 200 "ok" (some [])
    else HttpOutcome.response 500 "boom" (some [])

/-- C8: for every `FunnelConversion`, `conversion_rate` equals
`total_purchased / total_entries` when `total_entries` is non-zero and is
exactly `0.0` when `total_entries = 0`, for any `total_purchased`; the
definition is total, so no division-by-zero fault can occur. -/
theorem conversion_rate_spec (fc : FunnelConversion) :
    (fc.total_entries = 0 → fc.conversion_rate = 0) ∧
    (fc.total_entries ≠ 0 →
      fc.conversion_rate = (fc.total_purchased : ℚ) / (fc.total_entries : ℚ)) := by
  constructor <;> intro h <;> simp [FunnelConversion.conversion_rate, h]

/-- Witness for C8 at concrete inputs: zero entries give rate `0`, four
entries with one purchase give `1 / 4`. -/
theorem conversion_rate_spec_witness :
    FunnelConversion.conversion_rate ⟨"language", 0, 7⟩ = 0 ∧
    FunnelConversion.conversion_rate ⟨"language", 4, 1⟩ =
      ((1 : Int) : ℚ) / ((4 : Int) : ℚ) :=
  ⟨(conversion_rate_spec ⟨"language", 0, 7⟩).1 rfl,
   (conversion_rate_spec ⟨"language", 4, 1⟩).2 (by decide)⟩

/-- C2: `_request` failure classification on a non-dry-run call — an empty
API key raises `RuntimeError` with zero HTTP attempts; a network exception
raises `BrevoTransientError`; a response with status 429 or ≥ 500 raises
`BrevoTransientError`; any other response with status ≥ 400 raises
`BrevoFatalError`. -/
theorem request_classification (c : BrevoApiClient) (method path : String)
    (body : Option ContactPayload) (outcomes : Nat → HttpOutcome)
    (hdr : c.dry_run = false) :
    (c.api_key = "" →
      c.request method path body outcomes =
        (.error (.runtimeError "Brevo API key is not configured"), 0)) ∧
    (c.api_key ≠ "" → ∀ msg, outcomes 0 = .netError msg →
      c.request method path body outcomes =
        (.error (.transientError ("Network error: " ++ msg)), 1)) ∧
    (c.api_key ≠ "" → ∀ status text jsonBody,
      outcomes 0 = .response status text jsonBody →
      status = 429 ∨ 500 ≤ status →
      c.request method path body outcomes =
        (.error (.transientError
          ("Brevo API error " ++ toString status ++ ": " ++ trimResponseText text)), 1)) ∧
    (c.api_key ≠ "" → ∀ status text jsonBody,
      outcomes 0 = .response status text jsonBody →
      400 ≤ status → status ≠ 429 → status < 500 →
      c.request method path body outcomes =
        (.error (.fatalError
          ("Brevo API error " ++ toString status ++ ": " ++ trimResponseText text)), 1)) := by
  refine ⟨fun hk => ?_, fun hk msg hout => ?_, fun hk status text jsonBody hout hcls => ?_,
    fun hk status text jsonBody hout h4 hne h5 => ?_⟩
  · simp [BrevoApiClient.request, hdr, hk]
  · simp [BrevoApiClient.request, hdr, hk, hout]
  · have h4 : 400 ≤ status := by
      rcases hcls with h | h
      · omega
      · omega
    simp [BrevoApiClient.request, hdr, hk, hout, h4, hcls]
  · have hcls : ¬(status = 429 ∨ 500 ≤ status) := by omega
    simp [BrevoApiClient.request, hdr, hk, hout, h4, hcls]

/-- Witness for C2: a concrete non-dry-run client; an empty-key client gets
`RuntimeError` with zero attempts, and a 418 response is classified fatal. -/
theorem request_classification_witness :
    BrevoApiClient.request
        { api_key := "", base_url := "https://api.brevo.com/v3", dry_run := false }
        "POST" "/contacts" none (fun _ => HttpOutcome.response 418 "teapot" none) =
      (.error (.runtimeError "Brevo API key is not configured"), 0) ∧
    BrevoApiClient.request
        { api_key := "k", base_url := "https://api.brevo.com/v3", dry_run := false }
        "POST" "/contacts" none (fun _ => HttpOutcome.response 418 "teapot" none) =
      (.error (.fatalError
        ("Brevo API error " ++ toString 418 ++ ": " ++ trimResponseText "teapot")), 1) :=
  ⟨(request_classification
      { api_key := "", base_url := "https://api.brevo.com/v3", dry_run := false }
      "POST" "/contacts" none (fun _ => HttpOutcome.response 418 "teapot" none)
      rfl).1 rfl,
   (request_classification
      { api_key := "k", base_url := "https://api.brevo.com/v3", dry_run := false }
      "POST" "/contacts" none (fun _ => HttpOutcome.response 418 "teapot" none)
      rfl).2.2.2 (by decide) 418 "teapot" none rfl (by omega) (by omega) (by omega)⟩

/-- C10: a non-dry-run request whose response status is below 400 but whose
body is not valid JSON returns the empty dictionary after one attempt
instead of raising. -/
theorem request_invalid_json_success_body (c : BrevoApiClient)
    (method path : String) (body : Option ContactPayload)
    (outcomes : Nat → HttpOutcome) (status : Nat) (text : String)
    (hdr : c.dry_run = false) (hk : c.api_key ≠ "") (hst : status < 400)
    (hout : outcomes 0 = .response status text none) :
    c.request method path body outcomes = (.ok [], 1) := by
  have h4 : ¬(400 ≤ status) := by omega
  simp [BrevoApiClient.request, hdr, hk, hout, h4]

/-- Witness for C10: a 200 response with an unparseable body yields `{}`. -/
theorem request_invalid_json_success_body_witness :
    BrevoApiClient.request
        { api_key := "k", base_url := "https://api.brevo.com/v3", dry_run := false }
        "POST" "/contacts" none (fun _ => HttpOutcome.response 200 "not json" none) =
      (.ok [], 1) :=
  request_invalid_json_success_body
    { api_key := "k", base_url := "https://api.brevo.com/v3", dry_run := false }
    "POST" "/contacts"
    none (fun _ => HttpOutcome.response 200 "not json" none) 200 "not json"
    rfl (by decide) (by omega) rfl

/-- C1 failing input: the source `create_or_update_contact` goes through
`_request`, which contains no retry loop — against an environment whose
first attempt returns HTTP 500 and whose second attempt would return
HTTP 200, the call raises `BrevoTransientError` after exactly one attempt
instead of retrying and succeeding with two attempts as the claim states
(the repository's own tests, `tests/brevo/test_api_client.py`, assert the
retrying behaviour and construct the client with `max_retries` and
`base_backoff_seconds` arguments that `__init__` does not accept). -/
theorem create_or_update_contact_single_attempt :
    BrevoApiClient.create_or_update_contact
      { api_key := "secret-key", base_url := "https://api.brevo.com/v3",
        dry_run := false }
      { email := "user@example.com", list_ids := [1, 2],
        attributes := [("FUNNEL_TYPE", PyVal.str "language")],
        update_enabled := true }
      (fun i => if i = 0 then HttpOutcome.response 500 "Internal server error" (some [])
        else HttpOutcome.response 200 "ok" (some [("success", PyVal.bool true)])) =
    (.error (.transientError "Brevo API error 500: Internal server error"), 1) := by
  rfl

/-- A store holds no row with the tuple exactly when the tuple count is 0. -/
theorem tupleOccupied_false_iff (s : FunnelStore) (email funnel_type : String)
    (test_id : Option Int) :
    tupleOccupied s email funnel_type test_id = false ↔
      tupleCount s email funnel_type test_id = 0 := by
  rw [tupleOccupied, ← Bool.not_eq_true, List.any_eq_true]
  rw [tupleCount, List.length_eq_zero, List.filter_eq_nil_iff]
  push_neg
  simp

/-- `create_funnel_entry` on an occupied tuple: `IntegrityError` absorbed,
store untouched, `None` returned. -/
theorem create_funnel_entry_occupied (s : FunnelStore)
    (email funnel_type : String) (user_id test_id : Option Int)
    (h : tupleOccupied s email funnel_type test_id = true) :
    create_funnel_entry s email funnel_type user_id test_id = (s, none) := by
  simp [create_funnel_entry, h]

/-- The freshly inserted row matches its own tuple. -/
theorem tupleMatches_new_row (s : FunnelStore) (email funnel_type : String)
    (user_id test_id : Option Int) :
    tupleMatches email funnel_type test_id
      { id := s.next_id, email := email, funnel_type := funnel_type,
        user_id := user_id, test_id := test_id, certificate_purchased := false,
        certificate_purchased_at := none, entered_at := s.clock } = true := by
  simp [tupleMatches]

/-- C5: store-level idempotency of `create_funnel_entry` — when a row with
the (email, funnel_type, test_id) tuple already exists the call returns
`None` with the store untouched and no error; starting from a store with no
such row, the first call inserts the row and returns its id, and a second
identical call returns `None` and leaves exactly one stored row with the
tuple. -/
theorem create_funnel_entry_spec (s : FunnelStore) (email funnel_type : String)
    (user_id test_id : Option Int) :
    (tupleOccupied s email funnel_type test_id = true →
      create_funnel_entry s email funnel_type user_id test_id = (s, none)) ∧
    (tupleCount s email funnel_type test_id = 0 →
      (create_funnel_entry s email funnel_type user_id test_id).2 =
        some s.next_id ∧
      tupleCount (create_funnel_entry s email funnel_type user_id test_id).1
        email funnel_type test_id = 1 ∧
      create_funnel_entry
          (create_funnel_entry s email funnel_type user_id test_id).1
          email funnel_type user_id test_id =
        ((create_funnel_entry s email funnel_type user_id test_id).1, none)) := by
  constructor
  · exact create_funnel_entry_occupied s email funnel_type user_id test_id
  · intro h0
    have hocc : tupleOccupied s email funnel_type test_id = false :=
      (tupleOccupied_false_iff s email funnel_type test_id).mpr h0
    have hcount1 :
        tupleCount (create_funnel_entry s email funnel_type user_id test_id).1
          email funnel_type test_id = 1 := by
      simp only [create_funnel_entry, hocc, Bool.false_eq_true, if_false]
      simp only [tupleCount, List.filter_append, List.length_append]
      have hc0 := h0
      simp only [tupleCount] at hc0
      rw [hc0]
      simp [List.filter, tupleMatches_new_row s email funnel_type user_id test_id]
    refine ⟨by simp [create_funnel_entry, hocc], hcount1, ?_⟩
    have hocc1 :
        tupleOccupied (create_funnel_entry s email funnel_type user_id test_id).1
          email funnel_type test_id = true := by
      cases hx : tupleOccupied (create_funnel_entry s email funnel_type user_id test_id).1
          email funnel_type test_id with
      | true => rfl
      | false =>
          have := (tupleOccupied_false_iff _ email funnel_type test_id).mp hx
          omega
    exact create_funnel_entry_occupied _ email funnel_type user_id test_id hocc1

/-- Witness for C5 at a concrete store: the empty store accepts the first
insert and absorbs the duplicate. -/
theorem create_funnel_entry_spec_witness :
    (create_funnel_entry ⟨[], 1, 0⟩ "user@example.com" "language" (some 10)
        (some 20)).2 = some 1 ∧
    tupleCount (create_funnel_entry ⟨[], 1, 0⟩ "user@example.com" "language"
        (some 10) (some 20)).1 "user@example.com" "language" (some 20) = 1 ∧
    create_funnel_entry
        (create_funnel_entry ⟨[], 1, 0⟩ "user@example.com" "language" (some 10)
          (some 20)).1 "user@example.com" "language" (some 10) (some 20) =
      ((create_funnel_entry ⟨[], 1, 0⟩ "user@example.com" "language" (some 10)
          (some 20)).1, none) :=
  (create_funnel_entry_spec ⟨[], 1, 0⟩ "user@example.com" "language" (some 10)
    (some 20)).2 (by decide)

/-- A row that went through the UPDATE of `mark_certificate_purchased` can
never match the WHERE clause again: either it was untouched and already
failed the clause, or its purchased flag is now set. -/
theorem purchaseRowUpdate_not_matches (email funnel_type : String)
    (test_id : Option Int) (purchased_at : Int) (r : FunnelEntry) :
    purchaseRowMatches email funnel_type test_id
      (purchaseRowUpdate email funnel_type test_id purchased_at r) = false := by
  rw [purchaseRowUpdate]
  cases hm : purchaseRowMatches email funnel_type test_id r with
  | false => simp [hm]
  | true =>
      simp only [hm, if_true]
      cases test_id <;> simp [purchaseRowMatches]

/-- The UPDATE of `mark_certificate_purchased` is pointwise idempotent. -/
theorem purchaseRowUpdate_idem (email funnel_type : String)
    (test_id : Option Int) (purchased_at : Int) (r : FunnelEntry) :
    purchaseRowUpdate email funnel_type test_id purchased_at
      (purchaseRowUpdate email funnel_type test_id purchased_at r) =
    purchaseRowUpdate email funnel_type test_id purchased_at r := by
  rw [purchaseRowUpdate, purchaseRowUpdate_not_matches]
  simp

/-- C6 counterexample: on a store holding exactly one row that matches
(email, funnel_type, test_id) with the purchased flag unset, the UPDATE
touches one row, yet the call returns `None` — not the count of updated
rows (`some 1`) the claim describes: the source is annotated `-> None` and
never reads `cursor.rowcount`. -/
theorem mark_certificate_purchased_no_count_counterexample :
    purchaseUpdateCount
        ⟨[⟨1, "user@example.com", "language", none, some 5, false, none, 0⟩], 2, 1⟩
        "user@example.com" "language" (some 5) = 1 ∧
    (mark_certificate_purchased
        ⟨[⟨1, "user@example.com", "language", none, some 5, false, none, 0⟩], 2, 1⟩
        "user@example.com" "language" (some 5) 1700).2 = none ∧
    (mark_certificate_purchased
        ⟨[⟨1, "user@example.com", "language", none, some 5, false, none, 0⟩], 2, 1⟩
        "user@example.com" "language" (some 5) 1700).2 ≠
      some (purchaseUpdateCount
        ⟨[⟨1, "user@example.com", "language", none, some 5, false, none, 0⟩], 2, 1⟩
        "user@example.com" "language" (some 5)) := by
  refine ⟨by decide, rfl, by decide⟩

/-- C6 amended: `mark_certificate_purchased` updates exactly the rows
matching (email, funnel_type) — further restricted to the given test_id when
one is supplied — whose purchased flag is unset, setting the flag and the
purchased-at timestamp on all of them; rows already marked purchased are
never modified; the call is idempotent (a second identical call matches 0
rows and changes nothing); and it returns `None` rather than the count of
updated rows. -/
theorem mark_certificate_purchased_spec (s : FunnelStore)
    (email funnel_type : String) (test_id : Option Int) (purchased_at : Int) :
    (mark_certificate_purchased s email funnel_type test_id purchased_at).2 =
      none ∧
    (mark_certificate_purchased s email funnel_type test_id purchased_at).1.rows.length =
      s.rows.length ∧
    (∀ i r, s.rows.get? i = some r →
      purchaseRowMatches email funnel_type test_id r = true →
      (mark_certificate_purchased s email funnel_type test_id purchased_at).1.rows.get? i =
        some { r with certificate_purchased := true,
                      certificate_purchased_at := some purchased_at }) ∧
    (∀ i r, s.rows.get? i = some r →
      purchaseRowMatches email funnel_type test_id r = false →
      (mark_certificate_purchased s email funnel_type test_id purchased_at).1.rows.get? i =
        some r) ∧
    (∀ i r, s.rows.get? i = some r → r.certificate_purchased = true →
      (mark_certificate_purchased s email funnel_type test_id purchased_at).1.rows.get? i =
        some r) ∧
    purchaseUpdateCount
      (mark_certificate_purchased s email funnel_type test_id purchased_at).1
      email funnel_type test_id = 0 ∧
    mark_certificate_purchased
      (mark_certificate_purchased s email funnel_type test_id purchased_at).1
      email funnel_type test_id purchased_at =
    ((mark_certificate_purchased s email funnel_type test_id purchased_at).1,
      none) := by
  refine ⟨rfl, by simp [mark_certificate_purchased], ?_, ?_, ?_, ?_, ?_⟩
  · intro i r hget hm
    have hget' : s.rows[i]? = some r := by
      simpa [List.get?_eq_getElem?] using hget
    simp [mark_certificate_purchased, List.getElem?_map, hget',
      purchaseRowUpdate, hm]
  · intro i r hget hm
    have hget' : s.rows[i]? = some r := by
      simpa [List.get?_eq_getElem?] using hget
    simp [mark_certificate_purchased, List.getElem?_map, hget',
      purchaseRowUpdate, hm]
  · intro i r hget hp
    have hm : purchaseRowMatches email funnel_type test_id r = false := by
      cases test_id <;> simp [purchaseRowMatches, hp]
    have hget' : s.rows[i]? = some r := by
      simpa [List.get?_eq_getElem?] using hget
    simp [mark_certificate_purchased, List.getElem?_map, hget',
      purchaseRowUpdate, hm]
  · rw [purchaseUpdateCount, List.length_eq_zero, List.filter_eq_nil_iff]
    intro a ha
    rcases List.mem_map.mp ha with ⟨b, _, hb⟩
    simp [← hb, purchaseRowUpdate_not_matches]
  · rw [mark_certificate_purchased, mark_certificate_purchased]
    refine congrArg (fun rs => ({ s with rows := rs }, none)) ?_
    rw [List.map_map]
    exact List.map_congr_left (fun r _ =>
      purchaseRowUpdate_idem email funnel_type test_id purchased_at r)

/-- Witness for C6 at a concrete store of three rows: the matching unmarked
row is updated, the non-matching and the already-purchased rows are kept,
and the second call changes nothing. -/
theorem mark_certificate_purchased_spec_witness :
    (mark_certificate_purchased
        ⟨[⟨1, "a@b.c", "language", none, some 5, false, none, 0⟩,
          ⟨2, "a@b.c", "non_language", none, some 5, false, none, 1⟩,
          ⟨3, "a@b.c", "language", none, some 5, true, some 50, 2⟩], 4, 3⟩
        "a@b.c" "language" (some 5) 99).1.rows.get? 0 =
      some ⟨1, "a@b.c", "language", none, some 5, true, some 99, 0⟩ ∧
    (mark_certificate_purchased
        ⟨[⟨1, "a@b.c", "language", none, some 5, false, none, 0⟩,
          ⟨2, "a@b.c", "non_language", none, some 5, false, none, 1⟩,
          ⟨3, "a@b.c", "language", none, some 5, true, some 50, 2⟩], 4, 3⟩
        "a@b.c" "language" (some 5) 99).1.rows.get? 1 =
      some ⟨2, "a@b.c", "non_language", none, some 5, false, none, 1⟩ ∧
    (mark_certificate_purchased
        ⟨[⟨1, "a@b.c", "language", none, some 5, false, none, 0⟩,
          ⟨2, "a@b.c", "non_language", none, some 5, false, none, 1⟩,
          ⟨3, "a@b.c", "language", none, some 5, true, some 50, 2⟩], 4, 3⟩
        "a@b.c" "language" (some 5) 99).1.rows.get? 2 =
      some ⟨3, "a@b.c", "language", none, some 5, true, some 50, 2⟩ ∧
    purchaseUpdateCount
      (mark_certificate_purchased
        ⟨[⟨1, "a@b.c", "language", none, some 5, false, none, 0⟩,
          ⟨2, "a@b.c", "non_language", none, some 5, false, none, 1⟩,
          ⟨3, "a@b.c", "language", none, some 5, true, some 50, 2⟩], 4, 3⟩
        "a@b.c" "language" (some 5) 99).1 "a@b.c" "language" (some 5) = 0 := by
  have h := mark_certificate_purchased_spec
    ⟨[⟨1, "a@b.c", "language", none, some 5, false, none, 0⟩,
      ⟨2, "a@b.c", "non_language", none, some 5, false, none, 1⟩,
      ⟨3, "a@b.c", "language", none, some 5, true, some 50, 2⟩], 4, 3⟩
    "a@b.c" "language" (some 5) 99
  exact ⟨h.2.2.1 0 _ rfl (by decide), h.2.2.2.1 1 _ rfl (by decide),
    h.2.2.2.2.1 2 _ rfl rfl, h.2.2.2.2.2.1⟩

/-- C4 failing input: with the dry-run flag set on the Brevo client (the
only dry-run mechanism present in `funnels/sync_service.py`), processing one
language candidate still writes a `funnel_entries` row —
`_process_candidate` contains no dry-run short-circuit and calls
`create_funnel_entry` unconditionally, contradicting the claim that the
store write is skipped (the repository's own test
`test_funnel_sync_dry_run_does_not_call_brevo_or_create_entries` and the
`dry_run=` argument `app/main.py` passes to `FunnelSyncService` both expect
the claimed behaviour). -/
theorem funnel_sync_dry_run_still_writes_store :
    (FunnelSyncService.sync
        { api_key := "", base_url := "https://api.brevo.com/v3", dry_run := true }
        (fun _ _ => HttpOutcome.netError "unused")
        (fun _ _ => HttpOutcome.netError "unused")
        Connection.mk 4 5 ⟨⟨[], 1, 0⟩, [], []⟩
        [(1, "lang1@example.com")] 100).2 = none ∧
    ((FunnelSyncService.sync
        { api_key := "", base_url := "https://api.brevo.com/v3", dry_run := true }
        (fun _ _ => HttpOutcome.netError "unused")
        (fun _ _ => HttpOutcome.netError "unused")
        Connection.mk 4 5 ⟨⟨[], 1, 0⟩, [], []⟩
        [(1, "lang1@example.com")] 100).1.store.rows.map
      (fun r => (r.email, r.funnel_type))) =
      [("lang1@example.com", "language")] := by
  exact ⟨rfl, rfl⟩

/-- `create_funnel_entry` for a funnel type other than `non_language` never
changes the set of non-language rows. -/
theorem create_funnel_entry_preserves_non_language (s : FunnelStore)
    (email funnel_type : String) (user_id test_id : Option Int)
    (hft : funnel_type ≠ FunnelType.NON_LANGUAGE) :
    ((create_funnel_entry s email funnel_type user_id test_id).1.rows.filter
      (fun r => decide (r.funnel_type = FunnelType.NON_LANGUAGE))) =
    s.rows.filter (fun r => decide (r.funnel_type = FunnelType.NON_LANGUAGE)) := by
  rw [create_funnel_entry]
  cases h : tupleOccupied s email funnel_type test_id with
  | true => simp
  | false => simp [List.filter_append, hft]

/-- The per-funnel loop for a funnel type other than `non_language` neither
processes a non-language candidate nor touches a non-language row. -/
theorem sync_rows_loop_preserves_non_language (client : BrevoApiClient)
    (env : Nat → Nat → HttpOutcome) (funnel_type : String) (list_id : Int)
    (hft : funnel_type ≠ FunnelType.NON_LANGUAGE) :
    ∀ (rows : List (Int × String)) (i : Nat) (st : SyncState),
      ((sync_rows_loop client env funnel_type list_id i st rows).1.processed.filter
        (fun c => decide (c.funnel_type = FunnelType.NON_LANGUAGE))) =
        st.processed.filter
          (fun c => decide (c.funnel_type = FunnelType.NON_LANGUAGE)) ∧
      ((sync_rows_loop client env funnel_type list_id i st rows).1.store.rows.filter
        (fun r => decide (r.funnel_type = FunnelType.NON_LANGUAGE))) =
        st.store.rows.filter
          (fun r => decide (r.funnel_type = FunnelType.NON_LANGUAGE)) := by
  intro rows
  induction rows with
  | nil => intro i st; exact ⟨rfl, rfl⟩
  | cons row rest ih =>
      intro i st
      rw [sync_rows_loop]
      rcases hpc : process_candidate client (env i) st
          (map_placeholder_row_to_candidate row funnel_type) list_id with ⟨st2, err⟩
      have hstep :
          (st2.processed.filter
            (fun c => decide (c.funnel_type = FunnelType.NON_LANGUAGE))) =
            st.processed.filter
              (fun c => decide (c.funnel_type = FunnelType.NON_LANGUAGE)) ∧
          (st2.store.rows.filter
            (fun r => decide (r.funnel_type = FunnelType.NON_LANGUAGE))) =
            st.store.rows.filter
              (fun r => decide (r.funnel_type = FunnelType.NON_LANGUAGE)) := by
        rw [process_candidate] at hpc
        rcases hcall : BrevoApiClient.create_or_update_contact client
            { email := (map_placeholder_row_to_candidate row funnel_type).email,
              list_ids := [list_id],
              attributes := [("FUNNEL_TYPE",
                PyVal.str (map_placeholder_row_to_candidate row funnel_type).funnel_type)],
              update_enabled := true } (env i) with ⟨res, n⟩
        rw [hcall] at hpc
        cases res with
        | error e =>
            cases hpc
            exact ⟨by simp [List.filter_append, map_placeholder_row_to_candidate, hft],
              rfl⟩
        | ok d =>
            cases hpc
            refine ⟨by simp [List.filter_append, map_placeholder_row_to_candidate, hft], ?_⟩
            exact create_funnel_entry_preserves_non_language st.store _ _ _ _ hft
      cases err with
      | some e => exact hstep
      | none =>
          rcases ih (i + 1) st2 with ⟨ihp, ihs⟩
          exact ⟨ihp.trans hstep.1, ihs.trans hstep.2⟩

/-- C9: `get_non_language_test_candidates` returns the empty list for every
connection and limit, and consequently `FunnelSyncService.sync` never
processes a NON_LANGUAGE candidate and never creates a NON_LANGUAGE funnel
entry, whatever the configured non-language list id. -/
theorem non_language_funnel_never_populated (conn : Connection) (limit : Nat)
    (client : BrevoApiClient) (env_lang env_non : Nat → Nat → HttpOutcome)
    (language_list_id non_language_list_id : Int) (st : SyncState)
    (language_rows : List (Int × String)) (max_rows_per_type : Nat) :
    get_non_language_test_candidates conn limit = [] ∧
    ((FunnelSyncService.sync client env_lang env_non conn language_list_id
        non_language_list_id st language_rows max_rows_per_type).1.processed.filter
      (fun c => decide (c.funnel_type = FunnelType.NON_LANGUAGE))) =
      st.processed.filter
        (fun c => decide (c.funnel_type = FunnelType.NON_LANGUAGE)) ∧
    ((FunnelSyncService.sync client env_lang env_non conn language_list_id
        non_language_list_id st language_rows max_rows_per_type).1.store.rows.filter
      (fun r => decide (r.funnel_type = FunnelType.NON_LANGUAGE))) =
      st.store.rows.filter
        (fun r => decide (r.funnel_type = FunnelType.NON_LANGUAGE)) := by
  refine ⟨rfl, ?_⟩
  have hlang : FunnelType.LANGUAGE ≠ FunnelType.NON_LANGUAGE := by decide
  rw [FunnelSyncService.sync]
  rcases hsl : sync_language_funnel client env_lang language_list_id st
      language_rows with ⟨st1, err⟩
  have hstep :
      (st1.processed.filter
        (fun c => decide (c.funnel_type = FunnelType.NON_LANGUAGE))) =
        st.processed.filter
          (fun c => decide (c.funnel_type = FunnelType.NON_LANGUAGE)) ∧
      (st1.store.rows.filter
        (fun r => decide (r.funnel_type = FunnelType.NON_LANGUAGE))) =
        st.store.rows.filter
          (fun r => decide (r.funnel_type = FunnelType.NON_LANGUAGE)) := by
    rw [sync_language_funnel] at hsl
    by_cases hll : language_list_id ≤ 0
    · rw [if_pos hll] at hsl
      cases hsl
      exact ⟨rfl, rfl⟩
    · rw [if_neg hll] at hsl
      have := sync_rows_loop_preserves_non_language client env_lang
        FunnelType.LANGUAGE language_list_id hlang language_rows 0 st
      rw [hsl] at this
      exact this
  cases err with
  | some e => exact hstep
  | none =>
      dsimp only
      unfold sync_non_language_funnel
      by_cases hnl : non_language_list_id ≤ 0
      · rw [if_pos hnl]
        exact hstep
      · rw [if_neg hnl]
        exact hstep

/-- `_ensure_datetime` raises `ValueError` on every non-datetime value. -/
theorem ensure_datetime_error (v : DbValue) (hbad : ∀ t, v ≠ DbValue.datetime t) :
    ensure_datetime v = .error "Unexpected purchased_at value type" := by
  cases v with
  | datetime t => exact absurd rfl (hbad t)
  | intVal n => rfl
  | strVal s => rfl
  | nullVal => rfl

/-- The purchase-sync loop over a concatenation: the second part runs only
when the first part finished without an exception. -/
theorem purchase_sync_loop_append (client : BrevoApiClient) (dry_run : Bool)
    (env : Nat → Nat → HttpOutcome) (source : PurchaseSource) :
    ∀ (l1 l2 : List (String × String × Option Int × Option Int)) (i : Nat)
      (st : PurchaseState),
      purchase_sync_loop client dry_run env source i st (l1 ++ l2) =
        match purchase_sync_loop client dry_run env source i st l1 with
        | (st1, none) =>
            purchase_sync_loop client dry_run env source (i + l1.length) st1 l2
        | (st1, some e) => (st1, some e) := by
  intro l1
  induction l1 with
  | nil => intro l2 i st; simp [purchase_sync_loop]
  | cons entry rest ih =>
      intro l2 i st
      rcases hpe : process_pending_entry client dry_run (env i) source st entry
        with ⟨st2, err⟩
      cases err with
      | some e =>
          simp only [List.cons_append, purchase_sync_loop, hpe]
      | none =>
          simp only [List.cons_append, purchase_sync_loop, hpe]
          rw [List.append_eq, ih l2 (i + 1) st2]
          rcases purchase_sync_loop client dry_run env source (i + 1) st2 rest
            with ⟨st3, err3⟩
          cases err3 with
          | some e => rfl
          | none =>
              have hlen : i + 1 + rest.length = i + (entry :: rest).length := by
                simp [List.length_cons]
                omega
              rw [hlen]

/-- C7: when the external purchase source returns a `purchased_at` value
that is not a datetime for some pending entry, `PurchaseSyncService.sync`
raises the `ValueError` of `_ensure_datetime` — before the ledger update and
the contact dispatch for that entry (the state is exactly the state reached
after the earlier entries) — and the error propagates out of `sync` instead
of being absorbed. -/
theorem purchase_sync_data_integrity (client : BrevoApiClient) (dry_run : Bool)
    (env : Nat → Nat → HttpOutcome) (source : PurchaseSource)
    (st : PurchaseState) (max_rows : Nat)
    (pre rest : List (String × String × Option Int × Option Int))
    (email funnel_type : String) (user_id test_id : Option Int)
    (st1 : PurchaseState) (order_id : Int) (v : DbValue)
    (hpend : get_pending_funnel_entries st.store max_rows =
      pre ++ (email, funnel_type, user_id, test_id) :: rest)
    (hpre : purchase_sync_loop client dry_run env source 0 st pre = (st1, none))
    (hsrc : source email funnel_type = some (order_id, v))
    (hbad : ∀ t, v ≠ DbValue.datetime t) :
    PurchaseSyncService.sync client dry_run env source st max_rows =
      (st1, some (.valueError "Unexpected purchased_at value type")) := by
  rw [PurchaseSyncService.sync, hpend,
    purchase_sync_loop_append client dry_run env source pre
      ((email, funnel_type, user_id, test_id) :: rest) 0 st, hpre]
  dsimp only
  rw [purchase_sync_loop]
  simp only [process_pending_entry, hsrc, ensure_datetime_error v hbad]

/-- Witness for C7: one pending unmarked entry whose purchase row carries a
string where a datetime is expected — `sync` stops with the `ValueError`
and the store and dispatch trace are untouched. -/
theorem purchase_sync_data_integrity_witness :
    PurchaseSyncService.sync
        { api_key := "k", base_url := "https://api.brevo.com/v3", dry_run := false }
        false (fun _ _ => HttpOutcome.netError "unused")
        (fun _ _ => some (7, DbValue.strVal "2025-01-01"))
        ⟨⟨[⟨1, "u@e.c", "language", none, some 5, false, none, 0⟩], 2, 1⟩, []⟩ 100 =
      (⟨⟨[⟨1, "u@e.c", "language", none, some 5, false, none, 0⟩], 2, 1⟩, []⟩,
        some (.valueError "Unexpected purchased_at value type")) :=
  purchase_sync_data_integrity
    { api_key := "k", base_url := "https://api.brevo.com/v3", dry_run := false }
    false (fun _ _ => HttpOutcome.netError "unused")
    (fun _ _ => some (7, DbValue.strVal "2025-01-01"))
    ⟨⟨[⟨1, "u@e.c", "language", none, some 5, false, none, 0⟩], 2, 1⟩, []⟩ 100
    [] [] "u@e.c" "language" none (some 5)
    ⟨⟨[⟨1, "u@e.c", "language", none, some 5, false, none, 0⟩], 2, 1⟩, []⟩
    7 (DbValue.strVal "2025-01-01") rfl rfl rfl
    (fun _t h => DbValue.noConfusion h)

/-- Marking success on a different job id leaves a row lookup unchanged. -/
theorem find_mark_success_ne (ob : List BrevoSyncJob) (id id' : Nat)
    (h : id ≠ id') :
    (mark_job_success ob id').find? (fun x => decide (x.id = id)) =
      ob.find? (fun x => decide (x.id = id)) := by
  induction ob with
  | nil => rfl
  | cons j rest ih =>
      rw [mark_job_success, List.map_cons]
      by_cases hj : j.id = id
      · have hcond : ¬(j.id = id' ∧ j.status = JobStatus.pending) :=
          fun hc => h (hj ▸ hc.1)
        rw [if_neg hcond]
        rw [List.find?_cons_of_pos _ (by simp [hj]),
          List.find?_cons_of_pos _ (by simp [hj])]
      · by_cases hcond : (j.id = id' ∧ j.status = JobStatus.pending)
        · rw [if_pos hcond]
          rw [List.find?_cons_of_neg _ (by simp [hj]),
            List.find?_cons_of_neg _ (by simp [hj])]
          exact ih
        · rw [if_neg hcond]
          rw [List.find?_cons_of_neg _ (by simp [hj]),
            List.find?_cons_of_neg _ (by simp [hj])]
          exact ih

/-- Marking error on a different job id leaves a row lookup unchanged. -/
theorem find_mark_error_ne (ob : List BrevoSyncJob) (id id' : Nat)
    (msg : String) (h : id ≠ id') :
    (mark_job_error ob id' msg).find? (fun x => decide (x.id = id)) =
      ob.find? (fun x => decide (x.id = id)) := by
  induction ob with
  | nil => rfl
  | cons j rest ih =>
      rw [mark_job_error, List.map_cons]
      by_cases hj : j.id = id
      · have hcond : ¬(j.id = id' ∧ j.status = JobStatus.pending) :=
          fun hc => h (hj ▸ hc.1)
        rw [if_neg hcond]
        rw [List.find?_cons_of_pos _ (by simp [hj]),
          List.find?_cons_of_pos _ (by simp [hj])]
      · by_cases hcond : (j.id = id' ∧ j.status = JobStatus.pending)
        · rw [if_pos hcond]
          rw [List.find?_cons_of_neg _ (by simp [hj]),
            List.find?_cons_of_neg _ (by simp [hj])]
          exact ih
        · rw [if_neg hcond]
          rw [List.find?_cons_of_neg _ (by simp [hj]),
            List.find?_cons_of_neg _ (by simp [hj])]
          exact ih

/-- Marking success on the id of a pending row turns exactly that row's
status to SUCCESS, keeping its message. -/
theorem find_mark_success_self (ob : List BrevoSyncJob) (id : Nat)
    (j : BrevoSyncJob)
    (hfind : ob.find? (fun x => decide (x.id = id)) = some j)
    (hp : j.status = JobStatus.pending) :
    (mark_job_success ob id).find? (fun x => decide (x.id = id)) =
      some { j with status := JobStatus.success } := by
  induction ob with
  | nil => cases hfind
  | cons a rest ih =>
      rw [mark_job_success, List.map_cons]
      by_cases ha : a.id = id
      · rw [List.find?_cons_of_pos _ (by simp [ha])] at hfind
        injection hfind with heq
        subst heq
        rw [if_pos ⟨ha, hp⟩]
        rw [List.find?_cons_of_pos _ (by simp [ha])]
      · rw [List.find?_cons_of_neg _ (by simp [ha])] at hfind
        rw [if_neg (fun hc => ha hc.1)]
        rw [List.find?_cons_of_neg _ (by simp [ha])]
        exact ih hfind

/-- Marking error on the id of a pending row turns exactly that row's status
to ERROR and stores the message. -/
theorem find_mark_error_self (ob : List BrevoSyncJob) (id : Nat)
    (msg : String) (j : BrevoSyncJob)
    (hfind : ob.find? (fun x => decide (x.id = id)) = some j)
    (hp : j.status = JobStatus.pending) :
    (mark_job_error ob id msg).find? (fun x => decide (x.id = id)) =
      some { j with status := JobStatus.error, error_message := some msg } := by
  induction ob with
  | nil => cases hfind
  | cons a rest ih =>
      rw [mark_job_error, List.map_cons]
      by_cases ha : a.id = id
      · rw [List.find?_cons_of_pos _ (by simp [ha])] at hfind
        injection hfind with heq
        subst heq
        rw [if_pos ⟨ha, hp⟩]
        rw [List.find?_cons_of_pos _ (by simp [ha])]
      · rw [List.find?_cons_of_neg _ (by simp [ha])] at hfind
        rw [if_neg (fun hc => ha hc.1)]
        rw [List.find?_cons_of_neg _ (by simp [ha])]
        exact ih hfind

/-- Under unique ids, looking up a member row by its id finds that row. -/
theorem find_eq_of_mem_nodup (ob : List BrevoSyncJob)
    (hids : (ob.map (fun x => x.id)).Nodup) (j : BrevoSyncJob) (hj : j ∈ ob) :
    ob.find? (fun x => decide (x.id = j.id)) = some j := by
  induction ob with
  | nil => cases hj
  | cons a rest ih =>
      rw [List.map_cons, List.nodup_cons] at hids
      rcases List.mem_cons.mp hj with heq | hmem
      · subst heq
        rw [List.find?_cons_of_pos _ (by simp)]
      · have hane : a.id ≠ j.id := by
          intro he
          exact hids.1 (he ▸ List.mem_map_of_mem (fun x => x.id) hmem)
        rw [List.find?_cons_of_neg _ (by simp [hane])]
        exact ih hids.2 hmem

/-- Every fetched job is a pending member of the outbox. -/
theorem fetch_pending_jobs_mem (outbox : List BrevoSyncJob) (limit : Nat)
    (job : BrevoSyncJob) (hjob : job ∈ fetch_pending_jobs outbox limit) :
    job ∈ outbox ∧ job.status = JobStatus.pending := by
  rw [fetch_pending_jobs] at hjob
  have hmem := List.mem_of_mem_take hjob
  have := List.mem_filter.mp hmem
  exact ⟨this.1, by simpa using this.2⟩

/-- Fetching preserves the uniqueness of job ids. -/
theorem fetch_pending_jobs_nodup (outbox : List BrevoSyncJob) (limit : Nat)
    (hids : (outbox.map (fun x => x.id)).Nodup) :
    ((fetch_pending_jobs outbox limit).map (fun x => x.id)).Nodup := by
  have hsub : List.Sublist (fetch_pending_jobs outbox limit) outbox :=
    (List.take_sublist _ _).trans (List.filter_sublist _)
  exact hids.sublist (hsub.map (fun x => x.id))

/-- One `run_once` loop iteration, written as an explicit pair. -/
theorem run_once_step_eq (client : BrevoApiClient)
    (env : Nat → Nat → HttpOutcome) (ob : List BrevoSyncJob)
    (tr : List (Nat × Nat × Except PyExn Unit)) (p : Nat × BrevoSyncJob) :
    run_once_step client env (ob, tr) p =
      ((match (process_job client p.2 (env p.1)).1 with
        | .ok _ => mark_job_success ob p.2.id
        | .error e => mark_job_error ob p.2.id e.message),
       tr ++ [(p.2.id, (process_job client p.2 (env p.1)).2,
         (process_job client p.2 (env p.1)).1)]) := by
  rw [run_once_step]
  rcases process_job client p.2 (env p.1) with ⟨res, n⟩
  cases res <;> rfl

/-- The trace accumulated by the `run_once` fold lists every processed job
in order, with its attempt count and dispatch outcome. -/
theorem run_once_foldl_trace (client : BrevoApiClient)
    (env : Nat → Nat → HttpOutcome) :
    ∀ (l : List (Nat × BrevoSyncJob)) (ob : List BrevoSyncJob)
      (tr : List (Nat × Nat × Except PyExn Unit)),
      (l.foldl (run_once_step client env) (ob, tr)).2 =
        tr ++ l.map (fun p => (p.2.id, (process_job client p.2 (env p.1)).2,
          (process_job client p.2 (env p.1)).1)) := by
  intro l
  induction l with
  | nil => intro ob tr; simp
  | cons a l ih =>
      intro ob tr
      rw [List.foldl_cons, run_once_step_eq]
      rw [ih]
      simp

/-- Folding loop iterations whose job ids all differ from `id` leaves the
row with id `id` unchanged. -/
theorem run_once_foldl_find_ne (client : BrevoApiClient)
    (env : Nat → Nat → HttpOutcome) :
    ∀ (l : List (Nat × BrevoSyncJob)) (ob : List BrevoSyncJob)
      (tr : List (Nat × Nat × Except PyExn Unit)) (id : Nat),
      (∀ p ∈ l, p.2.id ≠ id) →
      ((l.foldl (run_once_step client env) (ob, tr)).1.find?
        (fun x => decide (x.id = id))) =
        ob.find? (fun x => decide (x.id = id)) := by
  intro l
  induction l with
  | nil => intro ob tr id hne; rfl
  | cons a l ih =>
      intro ob tr id hne
      rw [List.foldl_cons, run_once_step_eq]
      have hane : id ≠ a.2.id :=
        fun he => hne a (List.mem_cons_self a l) he.symm
      rw [ih _ _ id (fun p hp => hne p (List.mem_cons_of_mem a hp))]
      cases hres : (process_job client a.2 (env a.1)).1 with
      | ok u => exact find_mark_success_ne ob id a.2.id hane
      | error e => exact find_mark_error_ne ob id a.2.id e.message hane

/-- C3: `run_once` is total over any batch (it raises nothing and processes
every fetched job exactly once, in order — the trace equation) and, per job:
a payload that is not valid JSON is marked ERROR with the decoding-failure
message after zero HTTP attempts (the gateway is never called); an
unrecognized operation_type is marked ERROR after zero HTTP attempts; a
dispatch that raises any failure marks the job ERROR with that failure's
message; and a successful dispatch marks the job SUCCESS — a failure on one
job never prevents the rest of the batch from being processed. -/
theorem run_once_spec (client : BrevoApiClient) (outbox : List BrevoSyncJob)
    (env : Nat → Nat → HttpOutcome) (limit : Nat)
    (hids : (outbox.map (fun j => j.id)).Nodup) :
    (run_once client outbox env limit).2 =
      (fetch_pending_jobs outbox limit).enum.map (fun p =>
        (p.2.id, (process_job client p.2 (env p.1)).2,
          (process_job client p.2 (env p.1)).1)) ∧
    (∀ p ∈ (fetch_pending_jobs outbox limit).enum,
      statusOf (run_once client outbox env limit).1 p.2.id =
        some (match (process_job client p.2 (env p.1)).1 with
          | .ok _ => (JobStatus.success, p.2.error_message)
          | .error e => (JobStatus.error, some e.message))) ∧
    (∀ (i : Nat) (job : BrevoSyncJob) (err : String),
      job.payload = .malformed err →
      process_job client job (env i) =
        (.error (.valueError ("Invalid JSON payload for job "
          ++ toString job.id ++ ": " ++ err)), 0)) ∧
    (∀ (i : Nat) (job : BrevoSyncJob) (d : PayloadData),
      job.payload = .valid d →
      job.operation_type ≠ "upsert_contact" →
      job.operation_type ≠ "update_after_purchase" →
      process_job client job (env i) =
        (.error (.valueError ("Unknown operation_type '" ++ job.operation_type
          ++ "' for job " ++ toString job.id)), 0)) := by
  refine ⟨?_, ?_, ?_, ?_⟩
  · rw [run_once, run_once_foldl_trace]
    simp
  · intro p hp
    rcases List.append_of_mem hp with ⟨l1, l2, hsplit⟩
    have hjn : ((fetch_pending_jobs outbox limit).map (fun x => x.id)).Nodup :=
      fetch_pending_jobs_nodup outbox limit hids
    have hjobs_eq : fetch_pending_jobs outbox limit =
        (l1 ++ p :: l2).map Prod.snd := by
      rw [← hsplit, List.enum_map_snd]
    have hnd : ((l1.map (fun q => q.2.id)) ++
        p.2.id :: l2.map (fun q => q.2.id)).Nodup := by
      rw [hjobs_eq] at hjn
      simpa [List.map_map, List.map_append, Function.comp] using hjn
    have h1 : ∀ q ∈ l1, q.2.id ≠ p.2.id := by
      intro q hq he
      rcases List.nodup_append.mp hnd with ⟨_, _, hdisj⟩
      exact hdisj (List.mem_map_of_mem (fun q => q.2.id) hq)
        (by simp [he])
    have h2 : ∀ q ∈ l2, q.2.id ≠ p.2.id := by
      intro q hq he
      rcases List.nodup_append.mp hnd with ⟨_, hr, _⟩
      exact (List.nodup_cons.mp hr).1
        (he ▸ List.mem_map_of_mem (fun q => q.2.id) hq)
    have hmem : p.2 ∈ fetch_pending_jobs outbox limit := by
      have := List.mem_map_of_mem Prod.snd hp
      rwa [List.enum_map_snd] at this
    rcases fetch_pending_jobs_mem outbox limit p.2 hmem with ⟨hmemob, hpend⟩
    have hfind_ob : outbox.find? (fun x => decide (x.id = p.2.id)) = some p.2 :=
      find_eq_of_mem_nodup outbox hids p.2 hmemob
    rw [run_once, hsplit, List.foldl_append, List.foldl_cons]
    rcases hi1 : l1.foldl (run_once_step client env) (outbox, []) with ⟨ob1, tr1⟩
    have hfind_ob1 : ob1.find? (fun x => decide (x.id = p.2.id)) = some p.2 := by
      have := run_once_foldl_find_ne client env l1 outbox [] p.2.id h1
      rw [hi1] at this
      rw [this]
      exact hfind_ob
    rw [run_once_step_eq, statusOf,
      run_once_foldl_find_ne client env l2 _ _ p.2.id h2]
    cases hres : (process_job client p.2 (env p.1)).1 with
    | ok u =>
        rw [find_mark_success_self ob1 p.2.id p.2 hfind_ob1 hpend]
        rfl
    | error e =>
        rw [find_mark_error_self ob1 p.2.id e.message p.2 hfind_ob1 hpend]
        rfl
  · intro i job err hmal
    simp [process_job, hmal]
  · intro i job d hval hop1 hop2
    simp [process_job, hval, hop1, hop2]

/-- Witness for C3 on the fixture batch: the malformed-payload job and the
unknown-operation job end in ERROR with their validation messages, the
dispatch that got a 200 ends in SUCCESS, the dispatch that got a 500 ends in
ERROR with the transient failure's message, and all four jobs were
processed. -/
theorem run_once_spec_witness :
    statusOf (run_once worker_fixture_client worker_fixture_outbox
        worker_fixture_env 100).1 1 =
      some (JobStatus.error, some "Invalid JSON payload for job 1: Expecting value") ∧
    statusOf (run_once worker_fixture_client worker_fixture_outbox
        worker_fixture_env 100).1 2 =
      some (JobStatus.error, some "Unknown operation_type 'frobnicate' for job 2") ∧
    statusOf (run_once worker_fixture_client worker_fixture_outbox
        worker_fixture_env 100).1 3 =
      some (JobStatus.success, none) ∧
    statusOf (run_once worker_fixture_client worker_fixture_outbox
        worker_fixture_env 100).1 4 =
      some (JobStatus.error, some "Brevo API error 500: boom") ∧
    (run_once worker_fixture_client worker_fixture_outbox
        worker_fixture_env 100).2.length = 4 := by
  have h := run_once_spec worker_fixture_client worker_fixture_outbox
    worker_fixture_env 100 (by decide)
  refine ⟨?_, ?_, ?_, ?_, ?_⟩
  · exact h.2.1 (0, worker_fixture_outbox.get ⟨0, by decide⟩) (by decide)
  · exact h.2.1 (1, worker_fixture_outbox.get ⟨1, by decide⟩) (by decide)
  · exact h.2.1 (2, worker_fixture_outbox.get ⟨2, by decide⟩) (by decide)
  · exact h.2.1 (3, worker_fixture_outbox.get ⟨3, by decide⟩) (by decide)
  · rw [h.1]
    rfl

end Testizer
